import Mathlib

/-!
# Synote backend: summary caching and session tokens

A shallow embedding of the controllers

* `controllers/ai.notes.controller.js` (`getNoteSummary`),
* `controllers/ai.tasks.controller.js` (`getTaskSummary`),
* `controllers/user.controller.js` (`loginUser`, `logoutUser`,
  `refreshAccessToken`, `generateAccessAndRefrehToken`),
* `models/notes.model.js` (`noteSchema`),

with the document store passed explicitly as state.  Dates are their
`getTime()` value (milliseconds, an `Int`), a JavaScript value that may be
`undefined` or `null` is an `Option`, a `throw` is `Except.error`.
-/

namespace Synote

/-! ## JavaScript values -/

/-- The code points `String.prototype.trim` removes (ECMAScript WhiteSpace and
LineTerminator). -/
def jsIsWhiteSpace (c : Char) : Bool :=
  let n := c.toNat
  n == 0x09 || n == 0x0A || n == 0x0B || n == 0x0C || n == 0x0D || n == 0x20 ||
  n == 0xA0 || n == 0x1680 || (0x2000 ≤ n && n ≤ 0x200A) || n == 0x2028 ||
  n == 0x2029 || n == 0x202F || n == 0x205F || n == 0x3000 || n == 0xFEFF

/-- JavaScript `s.trim()`. -/
def jsTrim (s : String) : String :=
  ⟨((s.data.dropWhile jsIsWhiteSpace).reverse.dropWhile jsIsWhiteSpace).reverse⟩

/-- Truthiness of a string value: every string but the empty one. -/
def truthy (s : String) : Bool := s != ""

/-- Truthiness of a string that may be `undefined`. -/
def truthyOpt : Option String → Bool
  | some s => truthy s
  | none => false

/-- JavaScript `v?.trim()` followed by a truthiness test, as in `!v?.trim()`. -/
def trimTruthy (v : Option String) : Bool := truthyOpt (v.map jsTrim)

/-- A thrown value: `statusCode` is present on an `apiError`, absent on the
errors of libraries (`jsonwebtoken`, a `TypeError`). -/
structure JsError where
  statusCode : Option Nat
  message : String
deriving DecidableEq, Repr

/-- Constructor `new apiError(statusCode, message)`. -/
def apiError (statusCode : Nat) (message : String) : JsError :=
  { statusCode := some statusCode, message := message }

/-- The value `new apiResponse(statusCode, data, message)` sent with
`res.status(statusCode).json(...)`. -/
structure apiResponse (α : Type) where
  statusCode : Nat
  data : α
  message : String
deriving DecidableEq, Repr

/-! ## Notes: `models/notes.model.js` and `getNoteSummary` -/

/-- The sub-object the controller keeps in `note.summary`. -/
structure NoteSummary where
  content : String
  lastUpdated : Option Int
deriving DecidableEq, Repr

/-- A note document.  `summary` is the property the controller reads and
assigns; whether it is a path of the schema is decided by `Schema`. -/
structure NoteDoc where
  _id : Nat
  userId : Nat
  title : String
  content : Option String
  summary : Option NoteSummary
  createdAt : Int
  updatedAt : Int
deriving DecidableEq, Repr

/-- A mongoose schema: the declared paths and the `timestamps` option. -/
structure Schema where
  paths : List String
  timestamps : Bool
deriving DecidableEq, Repr

/-- The schema of `models/notes.model.js`: `title`, `content`, `userId`, with
`{ timestamps: true }` (which adds `createdAt` and `updatedAt`).  It declares no
`summary` path. -/
def noteSchema : Schema :=
  { paths := ["title", "content", "userId"], timestamps := true }

/-- The same schema with a `summary` path declared; used only to separate what
the controller does from what the schema lets through. -/
def noteSchemaWithSummary : Schema :=
  { paths := ["title", "content", "userId", "summary"], timestamps := true }

/-- Hydration of a stored document under a (strict) schema: a property that is
not a declared path is not defined on the document, so reading it gives
`undefined`. -/
def Schema.hydrate (S : Schema) (d : NoteDoc) : NoteDoc :=
  if "summary" ∈ S.paths then d else { d with summary := none }

/-- Query `Notes.findOne({ _id: noteId, userId })`. -/
def Notes.findOne (S : Schema) (store : List NoteDoc) (noteId userId : Nat) :
    Option NoteDoc :=
  (store.find? (fun d => d._id == noteId && d.userId == userId)).map S.hydrate

/-- What `note.save({ timestamps: false })` writes over the stored document
`old`: the declared paths of `note`.  A property set on the instance that is not
in the schema is never saved; with `timestamps: false` the `updatedAt` of the
instance is written as it is. -/
def Schema.persist (S : Schema) (old note : NoteDoc) : NoteDoc :=
  { old with
    title := note.title
    content := note.content
    userId := note.userId
    summary := if "summary" ∈ S.paths then note.summary else old.summary
    updatedAt := note.updatedAt }

/-- Call `note.save({ timestamps: false })`. -/
def Notes.save (S : Schema) (store : List NoteDoc) (note : NoteDoc) : List NoteDoc :=
  store.map (fun d => if d._id == note._id then S.persist d note else d)

/-- The request read by `getNoteSummary`: `req.user._id`, `req.params.noteId`,
`req.body.title` and `req.body.content`. -/
structure NoteRequest where
  userId : Nat
  noteId : Nat
  title : Option String
  content : Option String
deriving DecidableEq, Repr

/-- Body of the success response: `{ summary }`. -/
structure NoteSummaryData where
  summary : String
deriving DecidableEq, Repr

/-- What one call of a summary handler leaves behind: the store, the response
or the error handed to the error middleware, and how often the Summarizer and
`save` were called. -/
structure Outcome (σ α : Type) where
  store : σ
  result : Except JsError (apiResponse α)
  summarizerCalls : Nat
  saves : Nat

/-- The test `summary?.content && summary.lastUpdated?.getTime() === updatedAt.getTime()`
of `getNoteSummary` (lines 25-28). -/
def noteSummaryUpToDate (note : NoteDoc) : Bool :=
  match note.summary with
  | none => false
  | some summary =>
    truthy summary.content &&
      (match summary.lastUpdated with
       | none => false
       | some t => t == note.updatedAt)

/-- Handler `getNoteSummary`.  `summarizeNote` is the service call (it returns
the text or throws), `now` the value of `new Date()` on line 42. -/
def getNoteSummary (S : Schema)
    (summarizeNote : Option String → String → Except JsError String) (now : Int)
    (store : List NoteDoc) (req : NoteRequest) :
    Outcome (List NoteDoc) NoteSummaryData :=
  match Notes.findOne S store req.noteId req.userId with
  | none => ⟨store, .error (apiError 404 "No note found for summarizing"), 0, 0⟩
  | some note =>
    match req.content with
    | none => ⟨store, .error (apiError 400 "Note content is empty. Cannot summarize."), 0, 0⟩
    | some parsedContent =>
      if !truthy (jsTrim parsedContent) then
        ⟨store, .error (apiError 400 "Note content is empty. Cannot summarize."), 0, 0⟩
      else if noteSummaryUpToDate note then
        ⟨store,
          .ok ⟨200, ⟨(note.summary.map (·.content)).getD ""⟩, "Summary loaded from cache"⟩,
          0, 0⟩
      else
        match summarizeNote req.title parsedContent with
        | .error e => ⟨store, .error e, 1, 0⟩
        | .ok newSummary =>
          let note1 : NoteDoc :=
            { note with
              summary := some { content := newSummary, lastUpdated := some now }
              updatedAt := now }
          ⟨Notes.save S store note1,
            .ok ⟨200, ⟨newSummary⟩, "Note summarized successfully"⟩, 1, 1⟩

/-- The response of `getNoteSummary` is the cache response of lines 29-37. -/
def noteServedFromCache (o : Outcome (List NoteDoc) NoteSummaryData) : Bool :=
  match o.result with
  | .ok r => r.message == "Summary loaded from cache"
  | .error _ => false

/-! ## Tasks: `getTaskSummary` -/

/-- A populated subtask, as far as the controller reads it. -/
structure Subtask where
  content : Option String
  updatedAt : Int
deriving DecidableEq, Repr

/-- Modelled from the spec: the Task document (`models/task.model.js` is not
among the sources).  A composite entity with `updatedAt`, an optional `summary`
text and the marker `lastSummarizedAt`; `subtasks` is the array after
`populate("subtasks")`. -/
structure TaskDoc where
  _id : Nat
  userId : Nat
  title : String
  subtasks : List Subtask
  summary : Option String
  lastSummarizedAt : Option Int
  updatedAt : Int
deriving DecidableEq, Repr

/-- Query `Task.findOne({ _id: taskId, userId }).populate("subtasks")`. -/
def Task.findOne (store : List TaskDoc) (taskId userId : Nat) : Option TaskDoc :=
  store.find? (fun d => d._id == taskId && d.userId == userId)

/-- Modelled from the spec: `task.save()` with the store's default
auto-timestamp behaviour (the Task schema is not among the sources).  The
assigned paths are written, and when one of them changed the timestamp hook
sets `updatedAt` to the time `saveNow` it reads when the save runs. -/
def Task.save (saveNow : Int) (store : List TaskDoc) (task : TaskDoc) : List TaskDoc :=
  store.map (fun d =>
    if d._id == task._id then
      let modified := d.summary != task.summary || d.lastSummarizedAt != task.lastSummarizedAt
      { d with
        summary := task.summary
        lastSummarizedAt := task.lastSummarizedAt
        updatedAt := if modified then saveNow else d.updatedAt }
    else d)

/-- The request read by `getTaskSummary`: `req.user._id` and `req.params.id`. -/
structure TaskRequest where
  userId : Nat
  taskId : Nat
deriving DecidableEq, Repr

/-- Body of the task response: `{ summary, cached }`. -/
structure TaskSummaryData where
  summary : String
  cached : Bool
deriving DecidableEq, Repr

/-- The filter `(st) => !!st?.content?.trim()` of line 15. -/
def qualifies (st : Subtask) : Bool := trimTruthy st.content

/-- The test `!shouldSummarize && task.summary` of `getTaskSummary`
(lines 21-31), on the filtered `subtasks`. -/
def taskSummaryValid (task : TaskDoc) (subtasks : List Subtask) : Bool :=
  let lastSummarizedAt := task.lastSummarizedAt.getD 0
  let isTaskUpdated := decide (task.updatedAt > lastSummarizedAt)
  let isSubtaskUpdated := subtasks.any (fun sub => decide (sub.updatedAt > lastSummarizedAt))
  let shouldSummarize := isTaskUpdated || isSubtaskUpdated
  !shouldSummarize && truthyOpt task.summary

/-- Handler `getTaskSummary`.  `summarizeTask` is the service call, `now` the
value of `new Date()` on line 42 and `saveNow` the time the timestamp hook of
`task.save()` reads on line 43. -/
def getTaskSummary (summarizeTask : String → List Subtask → Except JsError String)
    (now saveNow : Int) (store : List TaskDoc) (req : TaskRequest) :
    Outcome (List TaskDoc) TaskSummaryData :=
  match Task.findOne store req.taskId req.userId with
  | none => ⟨store, .error (apiError 404 "Task not found"), 0, 0⟩
  | some task =>
    let subtasks := task.subtasks.filter qualifies
    if subtasks.length == 0 then
      ⟨store, .error (apiError 400 "No valid subtasks available for summarization"), 0, 0⟩
    else if taskSummaryValid task subtasks then
      ⟨store, .ok ⟨200, ⟨task.summary.getD "", true⟩, "Summary (cached)"⟩, 0, 0⟩
    else
      match summarizeTask task.title subtasks with
      | .error e => ⟨store, .error e, 1, 0⟩
      | .ok summary =>
        let task1 : TaskDoc :=
          { task with summary := some summary, lastSummarizedAt := some now }
        ⟨Task.save saveNow store task1,
          .ok ⟨200, ⟨summary, false⟩, "Task summarized successfully"⟩, 1, 1⟩

/-- The response of `getTaskSummary` carries `cached: true`. -/
def taskServedFromCache (o : Outcome (List TaskDoc) TaskSummaryData) : Bool :=
  match o.result with
  | .ok r => r.data.cached
  | .error _ => false

/-- The maximum `updatedAt` of a list of subtasks, `none` for the empty list. -/
def maxUpdatedAt : List Subtask → Option Int
  | [] => none
  | st :: rest =>
    match maxUpdatedAt rest with
    | none => some st.updatedAt
    | some m => some (max st.updatedAt m)

/-! ## Users: `controllers/user.controller.js` -/

/-- Modelled from the spec: the User document (`models/user.model.js` is not
among the sources).  `refreshToken` is the single session slot; `none` is a
slot that is unset or `null`. -/
structure User where
  _id : Nat
  email : String
  password : String
  refreshToken : Option String
deriving DecidableEq, Repr

/-- The token library and the token methods of the User model, which are not
among the sources: `verify` is `jwt.verify(token, REFRESH_TOKEN_SECRET)` giving
`decodedToken._id` or throwing; `generateRefreshToken` and `generateAccessToken`
are the model methods, which return a token or throw.  `jwt.verify` throws on
an empty token. -/
structure TokenService where
  verify : String → Except JsError Nat
  generateRefreshToken : User → Except JsError String
  generateAccessToken : User → Except JsError String
  verify_empty : ∀ uid, verify "" ≠ Except.ok uid

/-- An object literal with string properties, in property order. -/
abbrev JsObject := List (String × String)

/-- Property read `o.key`, which destructuring `const { key } = o` performs:
`undefined` when the object has no such property. -/
def JsObject.get (o : JsObject) (key : String) : Option String := o.lookup key

/-- Query `User.findById(userId)` and `User.findOne({ _id })`. -/
def User.findById (users : List User) (userId : Nat) : Option User :=
  users.find? (fun u => u._id == userId)

/-- Query `User.findOne({ email })`. -/
def User.findByEmail (users : List User) (email : String) : Option User :=
  users.find? (fun u => u.email == email)

/-- Call `user.save({ validateBeforeSave: false })`. -/
def User.save (users : List User) (user : User) : List User :=
  users.map (fun u => if u._id == user._id then user else u)

/-- Function `generateAccessAndRefrehToken` (lines 15-28): every throw inside
the `try` becomes the 500 error. -/
def generateAccessAndRefrehToken (ts : TokenService) (users : List User) (userId : Nat) :
    List User × Except JsError JsObject :=
  let failed : JsError := apiError 500 "Error while generating access and refresh tokens"
  match User.findById users userId with
  | none => (users, .error failed)
  | some user =>
    match ts.generateRefreshToken user with
    | .error _ => (users, .error failed)
    | .ok refreshToken =>
      match ts.generateAccessToken user with
      | .error _ => (users, .error failed)
      | .ok accessToken =>
        (User.save users { user with refreshToken := some refreshToken },
          .ok [("accessToken", accessToken), ("refreshToken", refreshToken)])

/-- A response that sets cookies: `res.status(..).cookie(name, value, options)...json(body)`.
A cookie value is the JavaScript value handed to `res.cookie`. -/
structure CookieResponse (α : Type) where
  cookies : List (String × Option String)
  body : apiResponse α
deriving DecidableEq, Repr

/-- The value given to `res.cookie(name, ...)`, `none` when no such cookie is
set or its value is `undefined`. -/
def CookieResponse.cookie {α : Type} (r : CookieResponse α) (name : String) : Option String :=
  (r.cookies.lookup name).join

/-- The request read by `loginUser`: `req.body.email`, `req.body.password`. -/
structure LoginRequest where
  email : Option String
  password : Option String
deriving DecidableEq, Repr

/-- Body of the login response: the user without `password` and
`refreshToken`, and the access token. -/
structure LoginData where
  userId : Nat
  email : String
  accessToken : Option String
deriving DecidableEq, Repr

/-- Handler `loginUser` (lines 81-120).  `checkPassword` is the model method
`user.checkPassword(password)`. -/
def loginUser (ts : TokenService) (checkPassword : User → String → Bool)
    (users : List User) (req : LoginRequest) :
    List User × Except JsError (CookieResponse LoginData) :=
  let email := req.email.map jsTrim
  let password := req.password.map jsTrim
  match email, password with
  | some email, some password =>
    if !truthy email || !truthy password then
      (users, .error (apiError 400 "Provide both email and password"))
    else
      match User.findByEmail users email with
      | none => (users, .error (apiError 409 "User does not exist"))
      | some user =>
        if !checkPassword user password then
          (users, .error (apiError 401 "Incorrect Password"))
        else
          match generateAccessAndRefrehToken ts users user._id with
          | (users1, .error e) => (users1, .error e)
          | (users1, .ok tokens) =>
            let accessToken := tokens.get "accessToken"
            let refreshToken := tokens.get "refreshToken"
            (users1, .ok
              { cookies := [("accessToken", accessToken), ("refreshToken", refreshToken)]
                body := ⟨200, ⟨user._id, user.email, accessToken⟩,
                  "User Logged In Successfully"⟩ })
  | _, _ => (users, .error (apiError 400 "Provide both email and password"))

/-- What the document mapper does with a key of an update whose value is
`undefined`: mongoose from version 6 on removes the key before the update is
sent, mongoose 5 sends it and the field is written as `null`.  The version in
use is not recorded in the sources. -/
inductive UndefinedInUpdate where
  | stripped
  | writtenAsNull
deriving DecidableEq, Repr

/-- The update `{ $set: { refreshToken: undefined } }` as it reaches the store:
`none` when it carries no field, `some v` when it sets `refreshToken` to `v`. -/
def castSetRefreshTokenUndefined : UndefinedInUpdate → Option (Option String)
  | .stripped => none
  | .writtenAsNull => some none

/-- Call `User.findByIdAndUpdate(id, { $set: { refreshToken: undefined } }, { new: true })`. -/
def User.findByIdAndUpdate (p : UndefinedInUpdate) (users : List User) (userId : Nat) :
    List User :=
  match castSetRefreshTokenUndefined p with
  | none => users
  | some v => users.map (fun u => if u._id == userId then { u with refreshToken := v } else u)

/-- Handler `logoutUser` (lines 122-138); `userId` is `req.user._id`.  The
response clears both cookies. -/
def logoutUser (p : UndefinedInUpdate) (users : List User) (userId : Nat) :
    List User × Except JsError (apiResponse Unit) :=
  (User.findByIdAndUpdate p users userId, .ok ⟨200, (), "User Logged Out"⟩)

/-- Body of the refresh response: `{ accessToken }`. -/
structure RefreshData where
  accessToken : Option String
deriving DecidableEq, Repr

/-- The `try` block of `refreshAccessToken` (lines 142-174); `cookie` is
`req.cookies.refreshToken`. -/
def refreshAccessTokenTry (ts : TokenService) (users : List User) (cookie : Option String) :
    List User × Except JsError (CookieResponse RefreshData) :=
  match cookie with
  | none => (users, .error (apiError 401 "Unauthorized Request"))
  | some incomingRefereshToken =>
    if !truthy incomingRefereshToken then
      (users, .error (apiError 401 "Unauthorized Request"))
    else
      match ts.verify incomingRefereshToken with
      | .error e => (users, .error e)
      | .ok decodedId =>
        match User.findById users decodedId with
        | none => (users, .error (apiError 401 "Invalid Refresh Token"))
        | some user =>
          if some incomingRefereshToken != user.refreshToken then
            (users, .error (apiError 401 "Refresh Token expired or invalid"))
          else
            match generateAccessAndRefrehToken ts users user._id with
            | (users1, .error e) => (users1, .error e)
            | (users1, .ok tokens) =>
              let accessToken := tokens.get "accessToken"
              let newRefreshToken := tokens.get "newRefreshToken"
              (users1, .ok
                { cookies := [("accessToken", accessToken), ("refreshToken", newRefreshToken)]
                  body := ⟨200, ⟨accessToken⟩, "Access Token Refreshed"⟩ })

/-- Handler `refreshAccessToken` (lines 140-178): the `catch` rethrows every
error of the `try` block as `apiError(401, error?.message || "Invalid Refresh Token")`. -/
def refreshAccessToken (ts : TokenService) (users : List User) (cookie : Option String) :
    List User × Except JsError (CookieResponse RefreshData) :=
  match refreshAccessTokenTry ts users cookie with
  | (users1, .error error) =>
    (users1, .error (apiError 401
      (if truthy error.message then error.message else "Invalid Refresh Token")))
  | (users1, .ok response) => (users1, .ok response)

/-! ## Concrete inputs -/

/-- A stored note whose summary carries the marker 50. -/
def cachedNote : NoteDoc :=
  { _id := 1, userId := 7, title := "t", content := some "hello",
    summary := some { content := "S", lastUpdated := some 50 },
    createdAt := 10, updatedAt := 50 }

/-- A note that was never summarized, last changed at time 10. -/
def freshNote : NoteDoc :=
  { _id := 1, userId := 7, title := "t", content := some "hello",
    summary := none, createdAt := 10, updatedAt := 10 }

/-- The request of user 7 for the summary of note 1 with content "hello". -/
def helloRequest : NoteRequest :=
  { userId := 7, noteId := 1, title := some "t", content := some "hello" }

/-- A Summarizer that answers every call with the text "S2". -/
def constSummarizer : Option String → String → Except JsError String :=
  fun _ _ => .ok "S2"

/-- A Summarizer whose result is the empty text. -/
def emptySummarizer : Option String → String → Except JsError String :=
  fun _ _ => .ok ""

/-- A Summarizer that throws. -/
def failingSummarizer : Option String → String → Except JsError String :=
  fun _ _ => .error { statusCode := none, message := "timeout" }

/-- A task of user 7 that was never summarized, with one subtask with content
and one without. -/
def freshTask : TaskDoc :=
  { _id := 3, userId := 7, title := "plan",
    subtasks := [{ content := some "buy milk", updatedAt := 10 },
                 { content := some "  ", updatedAt := 99 }],
    summary := none, lastSummarizedAt := none, updatedAt := 10 }

/-- The request of user 7 for the summary of task 3. -/
def planRequest : TaskRequest := { userId := 7, taskId := 3 }

/-- A task Summarizer that answers every call with the text "S". -/
def constTaskSummarizer : String → List Subtask → Except JsError String :=
  fun _ _ => .ok "S"

/-- A task Summarizer whose result is the empty text. -/
def emptyTaskSummarizer : String → List Subtask → Except JsError String :=
  fun _ _ => .ok ""

/-- A task Summarizer that throws. -/
def failingTaskSummarizer : String → List Subtask → Except JsError String :=
  fun _ _ => .error { statusCode := none, message := "timeout" }

/-- A task of user 7 summarized at time 50, after its last change and after the
last change of its one subtask with content; the blank subtask changed later. -/
def cachedTask : TaskDoc :=
  { _id := 3, userId := 7, title := "plan",
    subtasks := [{ content := some "buy milk", updatedAt := 40 },
                 { content := some "  ", updatedAt := 99 }],
    summary := some "S", lastSummarizedAt := some 50, updatedAt := 50 }

/-- A token service that accepts the refresh tokens "r0" and "r1" of subject 1
and issues the pair "a1", "r1". -/
def demoTokens : TokenService :=
  { verify := fun tok =>
      if tok == "r0" || tok == "r1" then .ok 1
      else .error { statusCode := none, message := "jwt malformed" }
    generateRefreshToken := fun _ => .ok "r1"
    generateAccessToken := fun _ => .ok "a1"
    verify_empty := by intro uid h; simp at h }

/-- The same service when signing fails. -/
def failingTokens : TokenService :=
  { verify := fun tok =>
      if tok == "r0" || tok == "r1" then .ok 1
      else .error { statusCode := none, message := "jwt malformed" }
    generateRefreshToken := fun _ =>
      .error { statusCode := none, message := "secretOrPrivateKey must have a value" }
    generateAccessToken := fun _ => .ok "a1"
    verify_empty := by intro uid h; simp at h }

/-- Subject 1 with the stored refresh token "r0". -/
def alice : User :=
  { _id := 1, email := "alice@example.org", password := "secret", refreshToken := some "r0" }

/-- A password check that compares with the stored value. -/
def plainCheckPassword : User → String → Bool :=
  fun user password => user.password == password

/-! ## Policy A: the note summary cache -/

theorem truthy_iff (s : String) : truthy s = true ↔ s ≠ "" := by
  simp [truthy]

theorem noteSummaryUpToDate_iff (note : NoteDoc) :
    noteSummaryUpToDate note = true ↔
      ∃ s, note.summary = some s ∧ s.content ≠ "" ∧ s.lastUpdated = some note.updatedAt := by
  unfold noteSummaryUpToDate
  cases hs : note.summary with
  | none => simp
  | some s =>
    cases hl : s.lastUpdated with
    | none => simp [hl]
    | some t => simp [hl, truthy_iff]

/-- For a note that is found and a content that is not blank, the handler is
the cache test followed by the Summarizer call. -/
theorem getNoteSummary_found (S : Schema)
    (summarizeNote : Option String → String → Except JsError String) (now : Int)
    (store : List NoteDoc) (req : NoteRequest) (note : NoteDoc) (parsedContent : String)
    (hfind : Notes.findOne S store req.noteId req.userId = some note)
    (hreq : req.content = some parsedContent) (hne : jsTrim parsedContent ≠ "") :
    getNoteSummary S summarizeNote now store req =
      if noteSummaryUpToDate note then
        ⟨store,
          .ok ⟨200, ⟨(note.summary.map (·.content)).getD ""⟩, "Summary loaded from cache"⟩,
          0, 0⟩
      else
        match summarizeNote req.title parsedContent with
        | .error e => ⟨store, .error e, 1, 0⟩
        | .ok newSummary =>
          ⟨Notes.save S store
              { note with
                summary := some { content := newSummary, lastUpdated := some now }
                updatedAt := now },
            .ok ⟨200, ⟨newSummary⟩, "Note summarized successfully"⟩, 1, 1⟩ := by
  have ht : truthy (jsTrim parsedContent) = true := (truthy_iff _).2 hne
  simp only [getNoteSummary, hfind, hreq, ht, Bool.not_true, Bool.false_eq_true, if_false]

theorem noteServedFromCache_found (S : Schema)
    (summarizeNote : Option String → String → Except JsError String) (now : Int)
    (store : List NoteDoc) (req : NoteRequest) (note : NoteDoc) (parsedContent : String)
    (hfind : Notes.findOne S store req.noteId req.userId = some note)
    (hreq : req.content = some parsedContent) (hne : jsTrim parsedContent ≠ "") :
    noteServedFromCache (getNoteSummary S summarizeNote now store req) =
      noteSummaryUpToDate note := by
  rw [getNoteSummary_found S summarizeNote now store req note parsedContent hfind hreq hne]
  cases hu : noteSummaryUpToDate note with
  | true => simp [noteServedFromCache]
  | false =>
    cases hsum : summarizeNote req.title parsedContent with
    | error e => simp [noteServedFromCache]
    | ok v => simp [noteServedFromCache]

/-- C1. Policy A (`getNoteSummary`): for a note owned by the caller and a
supplied content that is not blank, the request is served from the cache if and
only if a summary exists (its content is stored and non-empty) and
`summary.lastUpdated` equals the current `updatedAt` exactly.  A hit returns the
stored content, calls the Summarizer zero times and writes nothing; whenever
`updatedAt` differs from the marker, later or earlier, the call is a miss and
the Summarizer is called. -/
theorem getNoteSummary_cache_hit_iff (S : Schema)
    (summarizeNote : Option String → String → Except JsError String) (now : Int)
    (store : List NoteDoc) (req : NoteRequest) (note : NoteDoc) (parsedContent : String)
    (hfind : Notes.findOne S store req.noteId req.userId = some note)
    (hreq : req.content = some parsedContent) (hne : jsTrim parsedContent ≠ "") :
    (noteServedFromCache (getNoteSummary S summarizeNote now store req) = true ↔
      ∃ s, note.summary = some s ∧ s.content ≠ "" ∧ s.lastUpdated = some note.updatedAt) ∧
    (∀ s, note.summary = some s → s.content ≠ "" → s.lastUpdated = some note.updatedAt →
      getNoteSummary S summarizeNote now store req =
        ⟨store, .ok ⟨200, ⟨s.content⟩, "Summary loaded from cache"⟩, 0, 0⟩) ∧
    (∀ s t, note.summary = some s → s.lastUpdated = some t →
      (note.updatedAt < t ∨ t < note.updatedAt) →
      noteServedFromCache (getNoteSummary S summarizeNote now store req) = false ∧
      (getNoteSummary S summarizeNote now store req).summarizerCalls = 1) := by
  have hserved := noteServedFromCache_found S summarizeNote now store req note parsedContent
    hfind hreq hne
  have hbody := getNoteSummary_found S summarizeNote now store req note parsedContent
    hfind hreq hne
  refine ⟨?_, ?_, ?_⟩
  · rw [hserved]
    exact noteSummaryUpToDate_iff note
  · intro s hs hc hl
    have hu : noteSummaryUpToDate note = true :=
      (noteSummaryUpToDate_iff note).2 ⟨s, hs, hc, hl⟩
    rw [hbody, hu]
    simp [hs]
  · intro s t hs hl hlt
    have hu : noteSummaryUpToDate note = false := by
      cases h : noteSummaryUpToDate note with
      | false => rfl
      | true =>
        obtain ⟨s1, hs1, _, hl1⟩ := (noteSummaryUpToDate_iff note).1 h
        rw [hs] at hs1
        cases hs1
        rw [hl] at hl1
        cases hl1
        omega
    refine ⟨by rw [hserved, hu], ?_⟩
    rw [hbody, hu]
    cases hsum : summarizeNote req.title parsedContent with
    | error e => simp
    | ok v => simp

theorem getNoteSummary_cache_hit_iff_witness :
    Notes.findOne noteSchemaWithSummary [cachedNote] 1 7 = some cachedNote ∧
    jsTrim "hello" ≠ "" ∧
    getNoteSummary noteSchemaWithSummary constSummarizer 90 [cachedNote] helloRequest =
      ⟨[cachedNote], .ok ⟨200, ⟨"S"⟩, "Summary loaded from cache"⟩, 0, 0⟩ :=
  ⟨by decide, by decide,
    (getNoteSummary_cache_hit_iff noteSchemaWithSummary constSummarizer 90 [cachedNote]
      helloRequest cachedNote "hello" (by decide) rfl (by decide)).2.1
      ⟨"S", some 50⟩ rfl (by decide) rfl⟩

/-- Under the schema of `models/notes.model.js` a loaded note never has a
`summary`, so `getNoteSummary` never answers from the cache. -/
theorem getNoteSummary_noteSchema_never_cached
    (summarizeNote : Option String → String → Except JsError String) (now : Int)
    (store : List NoteDoc) (req : NoteRequest) :
    noteServedFromCache (getNoteSummary noteSchema summarizeNote now store req) = false := by
  unfold getNoteSummary
  cases hfind : Notes.findOne noteSchema store req.noteId req.userId with
  | none => simp [noteServedFromCache]
  | some note =>
    have hsum : note.summary = none := by
      unfold Notes.findOne at hfind
      cases hf : store.find? (fun d => d._id == req.noteId && d.userId == req.userId) with
      | none => rw [hf] at hfind; cases hfind
      | some d =>
        rw [hf] at hfind
        cases hfind
        simp [Schema.hydrate, noteSchema]
    have hu : noteSummaryUpToDate note = false := by
      simp [noteSummaryUpToDate, hsum]
    cases hc : req.content with
    | none => simp [noteServedFromCache]
    | some parsedContent =>
      by_cases ht : truthy (jsTrim parsedContent) = true
      · simp only [ht, hu, Bool.not_true, Bool.false_eq_true, if_false]
        cases hs : summarizeNote req.title parsedContent with
        | error e => simp [noteServedFromCache]
        | ok v => simp [noteServedFromCache]
      · simp [ht, noteServedFromCache]

/-- C2 (fails on the code). The schema of `models/notes.model.js` has no
`summary` path: the cache-miss write of `getNoteSummary` persists
`updatedAt = now` but not the summary, so the next call with no intervening
mutation is a miss again and calls the Summarizer again. -/
theorem getNoteSummary_second_call_misses :
    getNoteSummary noteSchema constSummarizer 100 [freshNote] helloRequest =
      ⟨[{ freshNote with updatedAt := 100 }],
        .ok ⟨200, ⟨"S2"⟩, "Note summarized successfully"⟩, 1, 1⟩ ∧
    getNoteSummary noteSchema constSummarizer 200
        (getNoteSummary noteSchema constSummarizer 100 [freshNote] helloRequest).store
        helloRequest =
      ⟨[{ freshNote with updatedAt := 200 }],
        .ok ⟨200, ⟨"S2"⟩, "Note summarized successfully"⟩, 1, 1⟩ := by
  constructor <;> rfl

/-- With a `summary` path declared in the schema the same two calls give a miss
and then a hit: the controller pins both timestamps to one `now`. -/
theorem getNoteSummary_second_call_hits_when_declared :
    getNoteSummary noteSchemaWithSummary constSummarizer 200
        (getNoteSummary noteSchemaWithSummary constSummarizer 100 [freshNote]
          helloRequest).store helloRequest =
      ⟨[{ freshNote with
            summary := some { content := "S2", lastUpdated := some 100 }
            updatedAt := 100 }],
        .ok ⟨200, ⟨"S2"⟩, "Summary loaded from cache"⟩, 0, 0⟩ := by
  rfl

/-! ## Policy B: the task summary cache -/

theorem maxUpdatedAt_isSome (l : List Subtask) (h : l ≠ []) :
    ∃ m, maxUpdatedAt l = some m := by
  cases l with
  | nil => exact absurd rfl h
  | cons st rest =>
    cases hr : maxUpdatedAt rest with
    | none => exact ⟨st.updatedAt, by simp [maxUpdatedAt, hr]⟩
    | some m => exact ⟨max st.updatedAt m, by simp [maxUpdatedAt, hr]⟩

theorem maxUpdatedAt_eq_none (l : List Subtask) (h : maxUpdatedAt l = none) : l = [] := by
  cases l with
  | nil => rfl
  | cons st rest =>
    cases hr : maxUpdatedAt rest with
    | none => simp [maxUpdatedAt, hr] at h
    | some m => simp [maxUpdatedAt, hr] at h

theorem maxUpdatedAt_le_iff (l : List Subtask) (x : Int) :
    ∀ m, maxUpdatedAt l = some m → (m ≤ x ↔ ∀ st ∈ l, st.updatedAt ≤ x) := by
  induction l with
  | nil => intro m h; simp [maxUpdatedAt] at h
  | cons st rest ih =>
    intro m h
    cases hr : maxUpdatedAt rest with
    | none =>
      have hnil := maxUpdatedAt_eq_none rest hr
      subst hnil
      simp only [maxUpdatedAt, Option.some.injEq] at h
      subst h
      simp
    | some r =>
      simp only [maxUpdatedAt, hr, Option.some.injEq] at h
      subst h
      have := ih r hr
      simp only [List.mem_cons, forall_eq_or_imp, max_le_iff, this]

theorem truthyOpt_iff (v : Option String) :
    truthyOpt v = true ↔ ∃ s, v = some s ∧ s ≠ "" := by
  cases v with
  | none => simp [truthyOpt]
  | some s => simp [truthyOpt, truthy_iff]

theorem taskSummaryValid_iff (task : TaskDoc) (subtasks : List Subtask) :
    taskSummaryValid task subtasks = true ↔
      (∃ s, task.summary = some s ∧ s ≠ "") ∧
      task.updatedAt ≤ task.lastSummarizedAt.getD 0 ∧
      ∀ st ∈ subtasks, st.updatedAt ≤ task.lastSummarizedAt.getD 0 := by
  unfold taskSummaryValid
  simp only [Bool.and_eq_true, Bool.not_eq_true', Bool.or_eq_false_iff, decide_eq_false_iff_not,
    not_lt, truthyOpt_iff, gt_iff_lt]
  constructor
  · rintro ⟨⟨h1, h2⟩, h3⟩
    refine ⟨h3, h1, ?_⟩
    intro st hst
    by_contra hc
    have : subtasks.any (fun sub => decide (task.lastSummarizedAt.getD 0 < sub.updatedAt)) = true :=
      List.any_eq_true.2 ⟨st, hst, by simpa using hc⟩
    rw [this] at h2
    cases h2
  · rintro ⟨h3, h1, h2⟩
    refine ⟨⟨h1, ?_⟩, h3⟩
    cases hany : subtasks.any (fun sub => decide (task.lastSummarizedAt.getD 0 < sub.updatedAt)) with
    | false => rfl
    | true =>
      obtain ⟨st, hst, hlt⟩ := List.any_eq_true.1 hany
      have := h2 st hst
      simp only [decide_eq_true_eq] at hlt
      omega

/-- For a task that is found and has a qualifying subtask, the handler is the
cache test followed by the Summarizer call. -/
theorem getTaskSummary_found
    (summarizeTask : String → List Subtask → Except JsError String) (now saveNow : Int)
    (store : List TaskDoc) (req : TaskRequest) (task : TaskDoc)
    (hfind : Task.findOne store req.taskId req.userId = some task)
    (hq : task.subtasks.filter qualifies ≠ []) :
    getTaskSummary summarizeTask now saveNow store req =
      if taskSummaryValid task (task.subtasks.filter qualifies) then
        ⟨store, .ok ⟨200, ⟨task.summary.getD "", true⟩, "Summary (cached)"⟩, 0, 0⟩
      else
        match summarizeTask task.title (task.subtasks.filter qualifies) with
        | .error e => ⟨store, .error e, 1, 0⟩
        | .ok summary =>
          ⟨Task.save saveNow store
              { task with summary := some summary, lastSummarizedAt := some now },
            .ok ⟨200, ⟨summary, false⟩, "Task summarized successfully"⟩, 1, 1⟩ := by
  have hlen : ((task.subtasks.filter qualifies).length == 0) = false := by
    cases hl : task.subtasks.filter qualifies with
    | nil => exact absurd hl hq
    | cons a l => rfl
  simp only [getTaskSummary, hfind, hlen, Bool.false_eq_true, if_false]

theorem taskServedFromCache_found
    (summarizeTask : String → List Subtask → Except JsError String) (now saveNow : Int)
    (store : List TaskDoc) (req : TaskRequest) (task : TaskDoc)
    (hfind : Task.findOne store req.taskId req.userId = some task)
    (hq : task.subtasks.filter qualifies ≠ []) :
    taskServedFromCache (getTaskSummary summarizeTask now saveNow store req) =
      taskSummaryValid task (task.subtasks.filter qualifies) := by
  rw [getTaskSummary_found summarizeTask now saveNow store req task hfind hq]
  cases hu : taskSummaryValid task (task.subtasks.filter qualifies) with
  | true => simp [taskServedFromCache]
  | false =>
    cases hsum : summarizeTask task.title (task.subtasks.filter qualifies) with
    | error e => simp [taskServedFromCache]
    | ok v => simp [taskServedFromCache]

theorem filter_qualifies_ne_nil (subtasks : List Subtask)
    (hq : ∃ st ∈ subtasks, qualifies st = true) : subtasks.filter qualifies ≠ [] := by
  obtain ⟨st, hst, hqs⟩ := hq
  intro hnil
  have : st ∈ subtasks.filter qualifies := List.mem_filter.2 ⟨hst, hqs⟩
  rw [hnil] at this
  cases this

/-- C3. Policy B (`getTaskSummary`): for a task owned by the caller with at
least one subtask whose content is not blank, the request is served from the
cache if and only if a summary already exists (stored and non-empty) and
`lastSummarizedAt` (the epoch 0 when never summarized) is not earlier than the
task's `updatedAt` and not earlier than the maximum `updatedAt` of the
qualifying subtasks.  A hit returns the stored summary without calling the
Summarizer or saving, and two tasks that differ only in subtasks that do not
qualify get the same decision. -/
theorem getTaskSummary_cache_hit_iff
    (summarizeTask : String → List Subtask → Except JsError String) (now saveNow : Int)
    (store : List TaskDoc) (req : TaskRequest) (task : TaskDoc)
    (hfind : Task.findOne store req.taskId req.userId = some task)
    (hq : ∃ st ∈ task.subtasks, qualifies st = true) :
    (taskServedFromCache (getTaskSummary summarizeTask now saveNow store req) = true ↔
      (∃ s, task.summary = some s ∧ s ≠ "") ∧
      task.updatedAt ≤ task.lastSummarizedAt.getD 0 ∧
      ∃ m, maxUpdatedAt (task.subtasks.filter qualifies) = some m ∧
        m ≤ task.lastSummarizedAt.getD 0) ∧
    (taskServedFromCache (getTaskSummary summarizeTask now saveNow store req) = true →
      ∃ s, task.summary = some s ∧
        getTaskSummary summarizeTask now saveNow store req =
          ⟨store, .ok ⟨200, ⟨s, true⟩, "Summary (cached)"⟩, 0, 0⟩) ∧
    (∀ (store2 : List TaskDoc) (req2 : TaskRequest) (task2 : TaskDoc),
      Task.findOne store2 req2.taskId req2.userId = some task2 →
      task2.summary = task.summary →
      task2.lastSummarizedAt = task.lastSummarizedAt →
      task2.updatedAt = task.updatedAt →
      task2.subtasks.filter qualifies = task.subtasks.filter qualifies →
      taskServedFromCache (getTaskSummary summarizeTask now saveNow store2 req2) =
        taskServedFromCache (getTaskSummary summarizeTask now saveNow store req)) := by
  have hne := filter_qualifies_ne_nil task.subtasks hq
  have hserved := taskServedFromCache_found summarizeTask now saveNow store req task hfind hne
  have hbody := getTaskSummary_found summarizeTask now saveNow store req task hfind hne
  obtain ⟨m, hm⟩ := maxUpdatedAt_isSome _ hne
  have hmax := maxUpdatedAt_le_iff (task.subtasks.filter qualifies)
    (task.lastSummarizedAt.getD 0) m hm
  refine ⟨?_, ?_, ?_⟩
  · rw [hserved, taskSummaryValid_iff]
    constructor
    · rintro ⟨h1, h2, h3⟩
      exact ⟨h1, h2, m, hm, hmax.2 h3⟩
    · rintro ⟨h1, h2, m1, hm1, h3⟩
      rw [hm] at hm1
      cases hm1
      exact ⟨h1, h2, hmax.1 h3⟩
  · intro h
    rw [hserved] at h
    obtain ⟨⟨s, hs, _⟩, _⟩ := (taskSummaryValid_iff _ _).1 h
    refine ⟨s, hs, ?_⟩
    rw [hbody, h]
    simp [hs]
  · intro store2 req2 task2 hfind2 hs hl hu hf
    have hne2 : task2.subtasks.filter qualifies ≠ [] := by rw [hf]; exact hne
    rw [hserved, taskServedFromCache_found summarizeTask now saveNow store2 req2 task2 hfind2 hne2,
      hf]
    simp only [taskSummaryValid, hs, hl, hu]

theorem getTaskSummary_cache_hit_iff_witness :
    Task.findOne [cachedTask] 3 7 = some cachedTask ∧
    (∃ st ∈ cachedTask.subtasks, qualifies st = true) ∧
    getTaskSummary constTaskSummarizer 100 101 [cachedTask] planRequest =
      ⟨[cachedTask], .ok ⟨200, ⟨"S", true⟩, "Summary (cached)"⟩, 0, 0⟩ := by
  have hq : ∃ st ∈ cachedTask.subtasks, qualifies st = true :=
    ⟨⟨some "buy milk", 40⟩, by decide, by decide⟩
  have h := getTaskSummary_cache_hit_iff constTaskSummarizer 100 101 [cachedTask] planRequest
    cachedTask rfl hq
  obtain ⟨s, hs, hout⟩ := h.2.1 (h.1.2 ⟨⟨"S", rfl, by decide⟩, by decide, 40, rfl, by decide⟩)
  cases hs
  exact ⟨rfl, hq, hout⟩

/-- C10 (fails on the code). `getTaskSummary` stores `lastSummarizedAt = now`
and then calls `task.save()`, whose timestamp hook sets `updatedAt` to the later
time it reads: with `now = 100` and the save at `101` the persisted task has
`updatedAt = 101 > lastSummarizedAt = 100`, and the next call with no
intervening mutation answers `cached: false` and calls the Summarizer again. -/
theorem getTaskSummary_second_call_misses :
    getTaskSummary constTaskSummarizer 100 101 [freshTask] planRequest =
      ⟨[{ freshTask with summary := some "S", lastSummarizedAt := some 100, updatedAt := 101 }],
        .ok ⟨200, ⟨"S", false⟩, "Task summarized successfully"⟩, 1, 1⟩ ∧
    getTaskSummary constTaskSummarizer 200 201
        (getTaskSummary constTaskSummarizer 100 101 [freshTask] planRequest).store
        planRequest =
      ⟨[{ freshTask with summary := some "S", lastSummarizedAt := some 200, updatedAt := 201 }],
        .ok ⟨200, ⟨"S", false⟩, "Task summarized successfully"⟩, 1, 1⟩ := by
  constructor <;> rfl

/-- When the save reads the same millisecond as `now`, the second call is
served from the cache: the miss after a later save comes from the timestamp
hook alone. -/
theorem getTaskSummary_second_call_hits_same_instant :
    getTaskSummary constTaskSummarizer 200 201
        (getTaskSummary constTaskSummarizer 100 100 [freshTask] planRequest).store
        planRequest =
      ⟨[{ freshTask with summary := some "S", lastSummarizedAt := some 100, updatedAt := 100 }],
        .ok ⟨200, ⟨"S", true⟩, "Summary (cached)"⟩, 0, 0⟩ := by
  rfl

/-! ## Summarizer failure -/

/-- C4 as stated fails: an empty Summarizer result is not treated as a failure.
`getNoteSummary` answers 200 and persists `updatedAt = now`; `getTaskSummary`
answers 200 and persists the empty summary, the marker and a new `updatedAt`. -/
theorem summarizer_empty_result_is_persisted :
    getNoteSummary noteSchema emptySummarizer 100 [freshNote] helloRequest =
      ⟨[{ freshNote with updatedAt := 100 }],
        .ok ⟨200, ⟨""⟩, "Note summarized successfully"⟩, 1, 1⟩ ∧
    (getNoteSummary noteSchema emptySummarizer 100 [freshNote] helloRequest).store ≠
      [freshNote] ∧
    getTaskSummary emptyTaskSummarizer 100 101 [freshTask] planRequest =
      ⟨[{ freshTask with summary := some "", lastSummarizedAt := some 100, updatedAt := 101 }],
        .ok ⟨200, ⟨"", false⟩, "Task summarized successfully"⟩, 1, 1⟩ ∧
    (getTaskSummary emptyTaskSummarizer 100 101 [freshTask] planRequest).store ≠
      [freshTask] := by
  refine ⟨rfl, ?_, rfl, ?_⟩ <;> decide

/-- C4 (amended). When the Summarizer throws (an error or a timeout) on the
input of the request, `getNoteSummary` and `getTaskSummary` persist nothing:
the store, and with it the stored summary, its marker and `updatedAt`, is the
same before and after, `save` is not called, and unless the request is
answered from the cache it fails with the error the Summarizer threw. -/
theorem summarizer_throw_persists_nothing :
    (∀ (S : Schema) (summarizeNote : Option String → String → Except JsError String)
      (now : Int) (store : List NoteDoc) (req : NoteRequest) (note : NoteDoc)
      (parsedContent : String) (e : JsError),
      Notes.findOne S store req.noteId req.userId = some note →
      req.content = some parsedContent → jsTrim parsedContent ≠ "" →
      summarizeNote req.title parsedContent = .error e →
      (getNoteSummary S summarizeNote now store req).store = store ∧
      (getNoteSummary S summarizeNote now store req).saves = 0 ∧
      (noteServedFromCache (getNoteSummary S summarizeNote now store req) = false →
        getNoteSummary S summarizeNote now store req = ⟨store, .error e, 1, 0⟩)) ∧
    (∀ (summarizeTask : String → List Subtask → Except JsError String) (now saveNow : Int)
      (store : List TaskDoc) (req : TaskRequest) (task : TaskDoc) (e : JsError),
      Task.findOne store req.taskId req.userId = some task →
      (∃ st ∈ task.subtasks, qualifies st = true) →
      summarizeTask task.title (task.subtasks.filter qualifies) = .error e →
      (getTaskSummary summarizeTask now saveNow store req).store = store ∧
      (getTaskSummary summarizeTask now saveNow store req).saves = 0 ∧
      (taskServedFromCache (getTaskSummary summarizeTask now saveNow store req) = false →
        getTaskSummary summarizeTask now saveNow store req = ⟨store, .error e, 1, 0⟩)) := by
  constructor
  · intro S summarizeNote now store req note parsedContent e hfind hreq hne hfail
    have hserved := noteServedFromCache_found S summarizeNote now store req note parsedContent
      hfind hreq hne
    rw [hserved]
    rw [getNoteSummary_found S summarizeNote now store req note parsedContent hfind hreq hne,
      hfail]
    cases hu : noteSummaryUpToDate note <;> simp
  · intro summarizeTask now saveNow store req task e hfind hq hfail
    have hne := filter_qualifies_ne_nil task.subtasks hq
    rw [taskServedFromCache_found summarizeTask now saveNow store req task hfind hne]
    rw [getTaskSummary_found summarizeTask now saveNow store req task hfind hne, hfail]
    cases hu : taskSummaryValid task (task.subtasks.filter qualifies) <;> simp

theorem summarizer_throw_persists_nothing_witness :
    getNoteSummary noteSchema failingSummarizer 100 [freshNote] helloRequest =
      ⟨[freshNote], .error ⟨none, "timeout"⟩, 1, 0⟩ ∧
    getTaskSummary failingTaskSummarizer 100 101 [freshTask] planRequest =
      ⟨[freshTask], .error ⟨none, "timeout"⟩, 1, 0⟩ :=
  ⟨(summarizer_throw_persists_nothing.1 noteSchema failingSummarizer 100 [freshNote]
      helloRequest freshNote "hello" ⟨none, "timeout"⟩ rfl rfl (by decide) rfl).2.2 rfl,
   (summarizer_throw_persists_nothing.2 failingTaskSummarizer 100 101 [freshTask]
      planRequest freshTask ⟨none, "timeout"⟩ rfl
      ⟨⟨some "buy milk", 10⟩, by decide, by decide⟩ rfl).2.2 rfl⟩

/-! ## Session tokens -/

theorem generateAccessAndRefrehToken_ok (ts : TokenService) (users users1 : List User)
    (userId : Nat) (tokens : JsObject)
    (h : generateAccessAndRefrehToken ts users userId = (users1, .ok tokens)) :
    ∃ user accessToken refreshToken,
      User.findById users userId = some user ∧
      tokens = [("accessToken", accessToken), ("refreshToken", refreshToken)] ∧
      users1 = User.save users { user with refreshToken := some refreshToken } := by
  unfold generateAccessAndRefrehToken at h
  cases hf : User.findById users userId with
  | none => simp [hf] at h
  | some user =>
    cases hr : ts.generateRefreshToken user with
    | error e => simp [hf, hr] at h
    | ok refreshToken =>
      cases ha : ts.generateAccessToken user with
      | error e => simp [hf, hr, ha] at h
      | ok accessToken =>
        simp only [hf, hr, ha, Prod.mk.injEq, Except.ok.injEq] at h
        exact ⟨user, accessToken, refreshToken, rfl, h.2.symm, h.1.symm⟩

theorem generateAccessAndRefrehToken_error (ts : TokenService) (users users1 : List User)
    (userId : Nat) (e : JsError)
    (h : generateAccessAndRefrehToken ts users userId = (users1, .error e)) :
    users1 = users ∧ e = apiError 500 "Error while generating access and refresh tokens" := by
  unfold generateAccessAndRefrehToken at h
  cases hf : User.findById users userId with
  | none =>
    simp only [hf, Prod.mk.injEq, Except.error.injEq] at h
    exact ⟨h.1.symm, h.2.symm⟩
  | some user =>
    cases hr : ts.generateRefreshToken user with
    | error e1 =>
      simp only [hf, hr, Prod.mk.injEq, Except.error.injEq] at h
      exact ⟨h.1.symm, h.2.symm⟩
    | ok refreshToken =>
      cases ha : ts.generateAccessToken user with
      | error e1 =>
        simp only [hf, hr, ha, Prod.mk.injEq, Except.error.injEq] at h
        exact ⟨h.1.symm, h.2.symm⟩
      | ok accessToken => simp [hf, hr, ha] at h

/-- For a token that verifies and whose subject exists, the `try` block is the
comparison with the stored token followed by the token generation. -/
theorem refreshAccessTokenTry_verified (ts : TokenService) (users : List User) (tok : String)
    (uid : Nat) (user : User) (hv : ts.verify tok = .ok uid)
    (hu : User.findById users uid = some user) :
    refreshAccessTokenTry ts users (some tok) =
      if some tok != user.refreshToken then
        (users, .error (apiError 401 "Refresh Token expired or invalid"))
      else
        match generateAccessAndRefrehToken ts users user._id with
        | (users1, .error e) => (users1, .error e)
        | (users1, .ok tokens) =>
          (users1, .ok
            { cookies := [("accessToken", tokens.get "accessToken"),
                          ("refreshToken", tokens.get "newRefreshToken")]
              body := ⟨200, ⟨tokens.get "accessToken"⟩, "Access Token Refreshed"⟩ }) := by
  have hne : tok ≠ "" := by
    intro h
    subst h
    exact ts.verify_empty uid hv
  have ht : truthy tok = true := (truthy_iff _).2 hne
  simp only [refreshAccessTokenTry, ht, hv, hu, Bool.not_true, Bool.false_eq_true, if_false]

/-- The `catch` of `refreshAccessToken` keeps an `apiError` with status 401 and a
non-empty message as it is. -/
theorem refreshAccessToken_of_try_401 (ts : TokenService) (users users1 : List User)
    (cookie : Option String) (message : String) (hm : message ≠ "")
    (h : refreshAccessTokenTry ts users cookie = (users1, .error (apiError 401 message))) :
    refreshAccessToken ts users cookie = (users1, .error (apiError 401 message)) := by
  unfold refreshAccessToken
  rw [h]
  simp [apiError, truthy, hm]

/-- C5. `refreshAccessToken`: a presented refresh token that verifies and whose
subject exists, but that is not the subject's stored `refreshToken`, is
answered with the error 401 "Refresh Token expired or invalid"; no response
with tokens is produced and the store is unchanged. -/
theorem refreshAccessToken_rejects_mismatch (ts : TokenService) (users : List User)
    (tok : String) (uid : Nat) (user : User) (hv : ts.verify tok = .ok uid)
    (hu : User.findById users uid = some user) (hne : user.refreshToken ≠ some tok) :
    refreshAccessToken ts users (some tok) =
      (users, .error (apiError 401 "Refresh Token expired or invalid")) := by
  have hcmp : (some tok != user.refreshToken) = true := by
    simp only [bne_iff_ne, ne_eq]
    exact fun h => hne h.symm
  apply refreshAccessToken_of_try_401 ts users users (some tok) _ (by decide)
  rw [refreshAccessTokenTry_verified ts users tok uid user hv hu, hcmp]
  rfl

theorem refreshAccessToken_rejects_mismatch_witness :
    demoTokens.verify "r1" = .ok 1 ∧ User.findById [alice] 1 = some alice ∧
    alice.refreshToken ≠ some "r1" ∧
    refreshAccessToken demoTokens [alice] (some "r1") =
      ([alice], .error (apiError 401 "Refresh Token expired or invalid")) :=
  ⟨rfl, rfl, by decide,
    refreshAccessToken_rejects_mismatch demoTokens [alice] "r1" 1 alice rfl rfl (by decide)⟩

/-- Every successful refresh hands `undefined` to `res.cookie("refreshToken", ...)`:
the object returned by `generateAccessAndRefrehToken` has no property
`newRefreshToken`. -/
theorem refreshAccessToken_cookie_undefined (ts : TokenService) (users users1 : List User)
    (cookie : Option String) (r : CookieResponse RefreshData)
    (h : refreshAccessToken ts users cookie = (users1, .ok r)) :
    r.cookie "refreshToken" = none := by
  unfold refreshAccessToken at h
  cases htry : refreshAccessTokenTry ts users cookie with
  | mk u res =>
    cases res with
    | error e => simp [htry] at h
    | ok resp =>
      simp only [htry, Prod.mk.injEq, Except.ok.injEq] at h
      obtain ⟨_, hr⟩ := h
      subst hr
      unfold refreshAccessTokenTry at htry
      cases cookie with
      | none => simp at htry
      | some tok =>
        simp only at htry
        split at htry
        · simp at htry
        · cases hv : ts.verify tok with
          | error e => simp [hv] at htry
          | ok uid =>
            cases hu : User.findById users uid with
            | none => simp [hv, hu] at htry
            | some user =>
              simp only [hv, hu] at htry
              split at htry
              · simp at htry
              · cases hg : generateAccessAndRefrehToken ts users user._id with
                | mk u2 res2 =>
                  cases res2 with
                  | error e => simp [hg] at htry
                  | ok tokens =>
                    obtain ⟨_, a, rt, _, htok, _⟩ :=
                      generateAccessAndRefrehToken_ok ts users u2 user._id tokens hg
                    simp only [hg, Prod.mk.injEq, Except.ok.injEq] at htry
                    rw [← htry.2, htok]
                    rfl

/-- C6 (fails on the code). A successful refresh stores the new refresh token
"r1" but destructures `newRefreshToken`, a property the returned object does
not have: the `refreshToken` cookie is set from `undefined`, not from the stored
value, and presenting what was handed back (no token, or the text "undefined")
to the next refresh is rejected.  `loginUser` destructures `refreshToken` and
sets the cookie from the stored value. -/
theorem refreshAccessToken_hands_back_undefined :
    refreshAccessToken demoTokens [alice] (some "r0") =
      ([{ alice with refreshToken := some "r1" }],
        .ok { cookies := [("accessToken", some "a1"), ("refreshToken", none)]
              body := ⟨200, ⟨some "a1"⟩, "Access Token Refreshed"⟩ }) ∧
    refreshAccessToken demoTokens [{ alice with refreshToken := some "r1" }] none =
      ([{ alice with refreshToken := some "r1" }],
        .error (apiError 401 "Unauthorized Request")) ∧
    refreshAccessToken demoTokens [{ alice with refreshToken := some "r1" }]
        (some "undefined") =
      ([{ alice with refreshToken := some "r1" }], .error (apiError 401 "jwt malformed")) ∧
    loginUser demoTokens plainCheckPassword [alice]
        ⟨some "alice@example.org", some "secret"⟩ =
      ([{ alice with refreshToken := some "r1" }],
        .ok { cookies := [("accessToken", some "a1"), ("refreshToken", some "r1")]
              body := ⟨200, ⟨1, "alice@example.org", some "a1"⟩,
                "User Logged In Successfully"⟩ }) := by
  refine ⟨rfl, rfl, rfl, rfl⟩

/-- C7 (fails on the code when the mapper strips `undefined` from an update).
The update `{ $set: { refreshToken: undefined } }` then carries no field:
`logoutUser` answers 200 and leaves the stored token "r0" in place, and the
refresh that presents "r0" after the logout succeeds. -/
theorem logoutUser_keeps_refresh_token :
    logoutUser .stripped [alice] 1 = ([alice], .ok ⟨200, (), "User Logged Out"⟩) ∧
    refreshAccessToken demoTokens (logoutUser .stripped [alice] 1).1 (some "r0") =
      ([{ alice with refreshToken := some "r1" }],
        .ok { cookies := [("accessToken", some "a1"), ("refreshToken", none)]
              body := ⟨200, ⟨some "a1"⟩, "Access Token Refreshed"⟩ }) := by
  refine ⟨rfl, rfl⟩

theorem findById_findByIdAndUpdate_writtenAsNull (users : List User) (userId uid : Nat)
    (user : User)
    (h : User.findById (User.findByIdAndUpdate .writtenAsNull users userId) uid = some user) :
    uid = userId → user.refreshToken = none := by
  intro huid
  subst huid
  induction users with
  | nil => simp [User.findById, User.findByIdAndUpdate, castSetRefreshTokenUndefined] at h
  | cons u rest ih =>
    simp only [User.findById, User.findByIdAndUpdate, castSetRefreshTokenUndefined,
      List.map_cons, List.find?_cons] at h ih
    by_cases hu : u._id = uid
    · simp only [hu, beq_self_eq_true, if_true, Option.some.injEq] at h
      rw [← h]
    · have hb : (u._id == uid) = false := by simpa using hu
      simp only [hb, Bool.false_eq_true, if_false] at h
      exact ih h

/-- When the mapper writes `undefined` as `null`, `logoutUser` empties the slot
from every state and answers 200, and every refresh token of the subject is
rejected afterwards. -/
theorem logoutUser_clears_when_written_as_null (ts : TokenService) (users : List User)
    (userId : Nat) (tok : String) (hv : ts.verify tok = .ok userId) :
    (logoutUser .writtenAsNull users userId).2 = .ok ⟨200, (), "User Logged Out"⟩ ∧
    (∀ user, User.findById (logoutUser .writtenAsNull users userId).1 userId = some user →
      user.refreshToken = none) ∧
    ∃ msg, refreshAccessToken ts (logoutUser .writtenAsNull users userId).1 (some tok) =
      ((logoutUser .writtenAsNull users userId).1, .error (apiError 401 msg)) := by
  refine ⟨rfl, ?_, ?_⟩
  · intro user h
    exact findById_findByIdAndUpdate_writtenAsNull users userId userId user h rfl
  · cases hu : User.findById (logoutUser .writtenAsNull users userId).1 userId with
    | none =>
      have hne : tok ≠ "" := by
        intro h
        subst h
        exact ts.verify_empty userId hv
      refine ⟨"Invalid Refresh Token", ?_⟩
      simp [refreshAccessToken, refreshAccessTokenTry, hne, hv, hu, apiError, truthy]
    | some user =>
      have hnone := findById_findByIdAndUpdate_writtenAsNull users userId userId user hu rfl
      have hcmp : (some tok != user.refreshToken) = true := by simp [hnone]
      refine ⟨"Refresh Token expired or invalid", ?_⟩
      apply refreshAccessToken_of_try_401 ts _ _ (some tok) _ (by decide)
      rw [refreshAccessTokenTry_verified ts _ tok userId user hv hu, hcmp]
      rfl

/-- C8 as stated fails: the login of an unknown subject and the login with a
wrong password are answered with different errors, 409 "User does not exist"
and 401 "Incorrect Password". -/
theorem loginUser_unknown_and_wrong_password_differ :
    loginUser demoTokens plainCheckPassword [alice]
        ⟨some "bob@example.org", some "secret"⟩ =
      ([alice], .error (apiError 409 "User does not exist")) ∧
    loginUser demoTokens plainCheckPassword [alice]
        ⟨some "alice@example.org", some "guess"⟩ =
      ([alice], .error (apiError 401 "Incorrect Password")) ∧
    (loginUser demoTokens plainCheckPassword [alice]
        ⟨some "bob@example.org", some "secret"⟩).2 ≠
      (loginUser demoTokens plainCheckPassword [alice]
        ⟨some "alice@example.org", some "guess"⟩).2 := by
  refine ⟨rfl, rfl, ?_⟩
  intro h
  have h1 : (loginUser demoTokens plainCheckPassword [alice]
      ⟨some "bob@example.org", some "secret"⟩).2 =
      .error (apiError 409 "User does not exist") := rfl
  have h2 : (loginUser demoTokens plainCheckPassword [alice]
      ⟨some "alice@example.org", some "guess"⟩).2 =
      .error (apiError 401 "Incorrect Password") := rfl
  rw [h1, h2] at h
  simp [apiError] at h

/-- C8 (amended). `loginUser`: for an email and a password that are not blank,
a login of an unknown subject fails with 409 "User does not exist" and a login
with a wrong password fails with 401 "Incorrect Password"; both leave the store
unchanged, and the two errors differ in status and in message. -/
theorem loginUser_failure_errors (ts : TokenService) (checkPassword : User → String → Bool)
    (users : List User) (req : LoginRequest) (email password : String)
    (he : req.email = some email) (hp : req.password = some password)
    (hne : jsTrim email ≠ "") (hnp : jsTrim password ≠ "") :
    (User.findByEmail users (jsTrim email) = none →
      loginUser ts checkPassword users req =
        (users, .error (apiError 409 "User does not exist"))) ∧
    (∀ user, User.findByEmail users (jsTrim email) = some user →
      checkPassword user (jsTrim password) = false →
      loginUser ts checkPassword users req =
        (users, .error (apiError 401 "Incorrect Password"))) ∧
    (apiError 409 "User does not exist").statusCode ≠
      (apiError 401 "Incorrect Password").statusCode ∧
    (apiError 409 "User does not exist").message ≠
      (apiError 401 "Incorrect Password").message := by
  have hte : truthy (jsTrim email) = true := (truthy_iff _).2 hne
  have htp : truthy (jsTrim password) = true := (truthy_iff _).2 hnp
  refine ⟨?_, ?_, by decide, by decide⟩
  · intro hnone
    simp [loginUser, he, hp, hte, htp, hnone]
  · intro user hsome hwrong
    simp [loginUser, he, hp, hte, htp, hsome, hwrong]

theorem loginUser_failure_errors_witness :
    jsTrim " bob@example.org " ≠ "" ∧ jsTrim "secret" ≠ "" ∧
    User.findByEmail [alice] (jsTrim " bob@example.org ") = none ∧
    loginUser demoTokens plainCheckPassword [alice]
        ⟨some " bob@example.org ", some "secret"⟩ =
      ([alice], .error (apiError 409 "User does not exist")) :=
  ⟨by decide, by decide, by decide,
    (loginUser_failure_errors demoTokens plainCheckPassword [alice]
      ⟨some " bob@example.org ", some "secret"⟩ " bob@example.org " "secret" rfl rfl
      (by decide) (by decide)).1 (by decide)⟩

/-- Inside `refreshAccessToken` every failure of the token generation reaches
the caller as a 401 that carries the message of the 500 error. -/
theorem refreshAccessToken_generation_failure (ts : TokenService) (users users1 : List User)
    (tok : String) (uid : Nat) (user : User) (e : JsError)
    (hv : ts.verify tok = .ok uid) (hu : User.findById users uid = some user)
    (heq : user.refreshToken = some tok)
    (hg : generateAccessAndRefrehToken ts users user._id = (users1, .error e)) :
    e = apiError 500 "Error while generating access and refresh tokens" ∧
    refreshAccessToken ts users (some tok) =
      (users, .error (apiError 401 "Error while generating access and refresh tokens")) := by
  obtain ⟨hu1, he⟩ := generateAccessAndRefrehToken_error ts users users1 user._id e hg
  refine ⟨he, ?_⟩
  have hcmp : (some tok != user.refreshToken) = false := by simp [heq]
  unfold refreshAccessToken
  rw [refreshAccessTokenTry_verified ts users tok uid user hv hu, hcmp, hg, hu1, he]
  simp [apiError, truthy]

/-- C9 (fails on the code). When signing fails, `generateAccessAndRefrehToken`
raises the 500 error, and the `catch` of `refreshAccessToken` rethrows it as a
401 with the same message: the caller is told 401, not 500.  `loginUser`, which
has no such `catch`, lets the same 500 through. -/
theorem refreshAccessToken_reports_401_for_generation_failure :
    generateAccessAndRefrehToken failingTokens [alice] 1 =
      ([alice], .error (apiError 500 "Error while generating access and refresh tokens")) ∧
    refreshAccessToken failingTokens [alice] (some "r0") =
      ([alice], .error (apiError 401 "Error while generating access and refresh tokens")) ∧
    (apiError 401 "Error while generating access and refresh tokens").statusCode ≠ some 500 ∧
    loginUser failingTokens plainCheckPassword [alice]
        ⟨some "alice@example.org", some "secret"⟩ =
      ([alice], .error (apiError 500 "Error while generating access and refresh tokens")) := by
  refine ⟨rfl, rfl, by decide, rfl⟩

end Synote
